import Mathlib

/-
Verification of the geo-point distance searcher
(search/searcher/search_geopointdistance.go).

The file embeds the three functions of the source file —
NewGeoPointDistanceSearcher, boxSearcher and buildDistFilter — as Lean
functions.  External collaborators (the geo codec, the bounding-box and
disjunction searcher constructors, the document value reader) live outside
the source file; they are modelled as abstract parameters: an environment
record supplies them, and every theorem quantifies over the environment.
Floating-point coordinates are modelled as rationals; the haversine
distance and the Morton decoders are opaque environment functions, since
no claim depends on their internals.  Resource release (Close calls on
searchers) is made observable as an explicit trace: each constructor
returns, next to its result, the list of sub-searchers it closed.
-/

set_option autoImplicit false

namespace GeoPointDistance

/-- A candidate document record; the source only reads its `Number`. -/
structure DocumentMatch where
  number : Nat

/-- Environment for `buildDistFilter`: the term-decoding collaborators.
`T` is the type of raw stored terms (byte slices in the source).
`shift` models `PrefixCoded.Shift` (`none` = decoding error), `int64`
models `PrefixCoded.Int64`, and the two Morton decoders and the haversine
distance are opaque, exactly as the source treats them. -/
structure GeoEnv (T : Type) where
  shift : T → Option Nat
  int64 : T → Option Int
  mortonUnhashLon : Nat → ℚ
  mortonUnhashLat : Nat → ℚ
  haversin : ℚ → ℚ → ℚ → ℚ → ℚ

/-- The Go conversion `uint64(i64)`: reinterpret a signed 64-bit value as
unsigned, i.e. reduce modulo 2^64. -/
def uint64OfInt (i : Int) : Nat := (i % (2 ^ 64)).toNat

/-- One invocation of the visitor callback of `buildDistFilter`: if the
term decodes with shift 0 and its integer decodes, append the decoded
(lon, lat) point and set `found`; otherwise leave the accumulator alone. -/
def visitStep {T : Type} (env : GeoEnv T) (acc : List (ℚ × ℚ) × Bool)
    (ft : String × T) : List (ℚ × ℚ) × Bool :=
  match env.shift ft.2 with
  | some 0 =>
    match env.int64 ft.2 with
    | some i =>
      (acc.1 ++ [(env.mortonUnhashLon (uint64OfInt i),
                  env.mortonUnhashLat (uint64OfInt i))], true)
    | none => acc
  | _ => acc

/-- The accumulation performed by `VisitDocumentValues` over the visited
(field, term) pairs: the lists `lons`/`lats` (zipped into one list of
pairs, since the source always appends to both together) and the `found`
flag. -/
def visitAccum {T : Type} (env : GeoEnv T) (terms : List (String × T)) :
    List (ℚ × ℚ) × Bool :=
  terms.foldl (visitStep env) ([], false)

/-- The document value reader: for a document number it yields the
(field, term) pairs handed to the callback and the error value returned
by `VisitDocumentValues` (`none` = success). -/
structure DVReader (T E : Type) where
  visit : Nat → List (String × T) × Option E

/-- Embedding of `buildDistFilter`: the closure returned for a document
match accumulates decoded shift-0 points over the visited terms, then, if
visitation succeeded and a point was found, accepts iff some decoded
point is within `maxDist / 1000` of the center; otherwise rejects. -/
def buildDistFilter {T E : Type} (env : GeoEnv T) (dvReader : DVReader T E)
    (centerLon centerLat maxDist : ℚ) : DocumentMatch → Bool :=
  fun d =>
    match dvReader.visit d.number with
    | (_, some _) => false
    | (terms, none) =>
      let acc := visitAccum env terms
      acc.2 && acc.1.any (fun pt =>
        decide (env.haversin pt.1 pt.2 centerLon centerLat ≤ maxDist / 1000))

/-- The decoding a single term undergoes in the callback, as a partial
function: `some (lon, lat)` exactly when the shift decodes to 0 and the
64-bit integer decodes. -/
def decodePoint {T : Type} (env : GeoEnv T) (t : T) : Option (ℚ × ℚ) :=
  match env.shift t with
  | some 0 =>
    (env.int64 t).map (fun i =>
      (env.mortonUnhashLon (uint64OfInt i), env.mortonUnhashLat (uint64OfInt i)))
  | _ => none

/-- A term is coarse when its shift decodes to a positive value. -/
def isCoarse {T : Type} (env : GeoEnv T) (t : T) : Bool :=
  match env.shift t with
  | some (_ + 1) => true
  | _ => false

theorem visitStep_decode {T : Type} (env : GeoEnv T)
    (acc : List (ℚ × ℚ) × Bool) (ft : String × T) :
    visitStep env acc ft =
      match decodePoint env ft.2 with
      | some pt => (acc.1 ++ [pt], true)
      | none => acc := by
  cases h : env.shift ft.2 with
  | none => simp [visitStep, decodePoint, h]
  | some s =>
    cases s with
    | zero =>
      cases h2 : env.int64 ft.2 <;> simp [visitStep, decodePoint, h, h2]
    | succ n => simp [visitStep, decodePoint, h]

theorem foldl_visitStep {T : Type} (env : GeoEnv T) :
    ∀ (terms : List (String × T)) (pts : List (ℚ × ℚ)) (fnd : Bool),
      terms.foldl (visitStep env) (pts, fnd) =
        (pts ++ terms.filterMap (fun ft => decodePoint env ft.2),
         fnd || !(terms.filterMap (fun ft => decodePoint env ft.2)).isEmpty)
  | [], pts, fnd => by simp
  | ft :: rest, pts, fnd => by
    rw [List.foldl_cons, visitStep_decode]
    cases h : decodePoint env ft.2 with
    | none =>
      simp only [List.filterMap_cons, h]
      exact foldl_visitStep env rest pts fnd
    | some pt =>
      simp only [List.filterMap_cons, h]
      rw [foldl_visitStep env rest (pts ++ [pt]) true]
      simp

/-- `visitAccum` computed in closed form: the decoded points are the
`filterMap` of `decodePoint` over the visited terms, and `found` holds
iff at least one term decoded. -/
theorem visitAccum_eq {T : Type} (env : GeoEnv T) (terms : List (String × T)) :
    visitAccum env terms =
      (terms.filterMap (fun ft => decodePoint env ft.2),
       !(terms.filterMap (fun ft => decodePoint env ft.2)).isEmpty) := by
  rw [visitAccum, foldl_visitStep]
  simp

theorem decodePoint_coarse {T : Type} (env : GeoEnv T) (t : T)
    (h : isCoarse env t = true) : decodePoint env t = none := by
  cases hs : env.shift t with
  | none => simp [isCoarse, hs] at h
  | some s =>
    cases s with
    | zero => simp [isCoarse, hs] at h
    | succ n => simp [decodePoint, hs]

theorem filterMap_decode_filter_coarse {T : Type} (env : GeoEnv T) :
    ∀ ts : List (String × T),
      ts.filterMap (fun ft => decodePoint env ft.2) =
        (ts.filter (fun ft => !(isCoarse env ft.2))).filterMap
          (fun ft => decodePoint env ft.2)
  | [] => rfl
  | ft :: rest => by
    have ih := filterMap_decode_filter_coarse env rest
    cases h : isCoarse env ft.2 with
    | true =>
      simp [List.filter_cons, h, List.filterMap_cons,
        decodePoint_coarse env ft.2 h, ih]
    | false =>
      cases hd : decodePoint env ft.2 with
      | none => simp [List.filter_cons, h, List.filterMap_cons, hd, ih]
      | some pt => simp [List.filter_cons, h, List.filterMap_cons, hd, ih]

/-- The composite scorer handed to the disjunction constructor.  The
source always builds a sum scorer at the dateline split; a second
constructor keeps the statement about it non-degenerate. -/
inductive CompositeScorer where
  | sum
  | avg

/-- The searcher graph this source file can construct, as a syntax tree:
bounding-box leaves (recording all forwarded construction arguments),
disjunction nodes (sub-searchers, minimum-match count, composite scorer)
and the filtering wrapper (recording the distance-filter parameters the
predicate closes over). -/
inductive Searcher where
  | geoBox (minLon minLat maxLon maxLat : ℚ) (field : String) (boost : ℚ)
      (checkBoundaries : Bool) (precisionStep : Nat)
  | disjunction (subs : List Searcher) (minMatch : Nat) (scorer : CompositeScorer)
  | filtering (base : Searcher) (centerLon centerLat maxDist : ℚ)

/-- Environment for searcher construction: the external collaborators of
`NewGeoPointDistanceSearcher` and `boxSearcher`.  Each fallible
constructor is modelled by a failure oracle (`some e` = the collaborator
fails with error `e` for those arguments; `none` = it succeeds). -/
structure BuildEnv (E : Type) where
  rectFromPointDistance : ℚ → ℚ → ℚ → Except E (ℚ × ℚ × ℚ × ℚ)
  geoBoundingBoxFail : ℚ → ℚ → ℚ → ℚ → String → ℚ → Bool → Nat → Option E
  disjunctionFail : List Searcher → Nat → CompositeScorer → Option E
  documentValueReaderFail : List String → Option E

/-- The external bounding-box searcher constructor: on success it yields
a `geoBox` leaf recording the arguments that were forwarded to it. -/
def NewGeoBoundingBoxSearcher {E : Type} (env : BuildEnv E)
    (minLon minLat maxLon maxLat : ℚ) (field : String) (boost : ℚ)
    (checkBoundaries : Bool) (precisionStep : Nat) : Except E Searcher :=
  match env.geoBoundingBoxFail minLon minLat maxLon maxLat field boost
      checkBoundaries precisionStep with
  | some e => .error e
  | none => .ok (.geoBox minLon minLat maxLon maxLat field boost
      checkBoundaries precisionStep)

/-- The external disjunction searcher constructor. -/
def NewDisjunctionSearcher {E : Type} (env : BuildEnv E)
    (subs : List Searcher) (minMatch : Nat) (scorer : CompositeScorer) :
    Except E Searcher :=
  match env.disjunctionFail subs minMatch scorer with
  | some e => .error e
  | none => .ok (.disjunction subs minMatch scorer)

/-- The filtering-searcher wrapper: pure composition, never fails. -/
def NewFilteringSearcher (base : Searcher) (centerLon centerLat maxDist : ℚ) :
    Searcher :=
  .filtering base centerLon centerLat maxDist

/-- Embedding of `boxSearcher`.  Next to the result it returns the trace
of sub-searchers it closed, in order, making the Close calls on its error
paths observable.  On the dateline-crossing branch it builds the left box
over [-180, bottomRightLat, bottomRightLon, topLeftLat], then the right
box over [topLeftLon, bottomRightLat, 180, topLeftLat], then joins them
in a disjunction with minimum-match 0 and a sum composite scorer, closing
the already-built sub-searchers when a later step fails; otherwise it
builds a single box over
[topLeftLon, bottomRightLat, bottomRightLon, topLeftLat]. -/
def boxSearcher {E : Type} (env : BuildEnv E)
    (topLeftLon topLeftLat bottomRightLon bottomRightLat : ℚ)
    (field : String) (boost : ℚ) (checkBoundaries : Bool)
    (precisionStep : Nat) : Except E Searcher × List Searcher :=
  if bottomRightLon < topLeftLon then
    match NewGeoBoundingBoxSearcher env (-180) bottomRightLat bottomRightLon
        topLeftLat field boost checkBoundaries precisionStep with
    | .error e => (.error e, [])
    | .ok leftSearcher =>
      match NewGeoBoundingBoxSearcher env topLeftLon bottomRightLat 180
          topLeftLat field boost checkBoundaries precisionStep with
      | .error e => (.error e, [leftSearcher])
      | .ok rightSearcher =>
        match NewDisjunctionSearcher env [leftSearcher, rightSearcher] 0
            .sum with
        | .error e => (.error e, [leftSearcher, rightSearcher])
        | .ok s => (.ok s, [])
  else
    match NewGeoBoundingBoxSearcher env topLeftLon bottomRightLat
        bottomRightLon topLeftLat field boost checkBoundaries precisionStep with
    | .error e => (.error e, [])
    | .ok s => (.ok s, [])

/-- Embedding of `NewGeoPointDistanceSearcher`: compute the bounding
rectangle of the circle, build the box searcher for it (with
checkBoundaries set to false), acquire the document value reader, and
wrap the box searcher in a filtering searcher carrying the distance
filter.  Each failing step propagates its error; the close trace is the
one produced inside `boxSearcher` (the value-reader failure path closes
nothing, exactly as the source does). -/
def NewGeoPointDistanceSearcher {E : Type} (env : BuildEnv E)
    (centerLon centerLat dist : ℚ) (field : String) (boost : ℚ)
    (precisionStep : Nat) : Except E Searcher × List Searcher :=
  match env.rectFromPointDistance centerLon centerLat dist with
  | .error e => (.error e, [])
  | .ok (topLeftLon, topLeftLat, bottomRightLon, bottomRightLat) =>
    match boxSearcher env topLeftLon topLeftLat bottomRightLon bottomRightLat
        field boost false precisionStep with
    | (.error e, closed) => (.error e, closed)
    | (.ok box, closed) =>
      match env.documentValueReaderFail [field] with
      | some e => (.error e, closed)
      | none =>
        (.ok (NewFilteringSearcher box centerLon centerLat dist), closed)

/-- Claim C2: for every document whose value visitation succeeds, the
distance-filter predicate built by buildDistFilter returns true iff at
least one stored term with shift 0 decodes to a (lon, lat) point whose
haversine distance to the query center is at most maxDist/1000; if no
shift-0 point was decoded, or every decoded point is farther, it returns
false. -/
theorem buildDistFilter_true_iff {T E : Type} (env : GeoEnv T)
    (dvReader : DVReader T E) (centerLon centerLat maxDist : ℚ)
    (d : DocumentMatch) (terms : List (String × T))
    (hvisit : dvReader.visit d.number = (terms, none)) :
    buildDistFilter env dvReader centerLon centerLat maxDist d = true ↔
      ∃ ft ∈ terms, ∃ pt, decodePoint env ft.2 = some pt ∧
        env.haversin pt.1 pt.2 centerLon centerLat ≤ maxDist / 1000 := by
  unfold buildDistFilter
  rw [hvisit]
  simp only [visitAccum_eq]
  constructor
  · intro h
    simp only [Bool.and_eq_true, List.any_eq_true, decide_eq_true_eq] at h
    obtain ⟨-, pt, hmem, hle⟩ := h
    obtain ⟨ft, hft, hdec⟩ := List.mem_filterMap.mp hmem
    exact ⟨ft, hft, pt, hdec, hle⟩
  · rintro ⟨ft, hft, pt, hdec, hle⟩
    have hmem : pt ∈ terms.filterMap (fun ft => decodePoint env ft.2) :=
      List.mem_filterMap.mpr ⟨ft, hft, hdec⟩
    have hne : terms.filterMap (fun ft => decodePoint env ft.2) ≠ [] :=
      List.ne_nil_of_mem hmem
    simp only [Bool.and_eq_true, List.any_eq_true, decide_eq_true_eq]
    refine ⟨?_, pt, hmem, hle⟩
    simpa using hne

/-- Claim C3: stored terms whose shift is greater than 0 are never
decoded to coordinates and never influence the predicate result: for any
two documents whose visited term sequences agree after the coarse terms
are removed (and whose visitation outcome is the same), the
distance-filter predicate returns the same result on both. -/
theorem buildDistFilter_coarse_invariant {T E : Type} (env : GeoEnv T)
    (dv1 dv2 : DVReader T E) (centerLon centerLat maxDist : ℚ)
    (d1 d2 : DocumentMatch) (ts1 ts2 : List (String × T)) (e : Option E)
    (h1 : dv1.visit d1.number = (ts1, e))
    (h2 : dv2.visit d2.number = (ts2, e))
    (hsame : ts1.filter (fun ft => !(isCoarse env ft.2)) =
             ts2.filter (fun ft => !(isCoarse env ft.2))) :
    (∀ t : T, isCoarse env t = true → decodePoint env t = none) ∧
      buildDistFilter env dv1 centerLon centerLat maxDist d1 =
        buildDistFilter env dv2 centerLon centerLat maxDist d2 := by
  have hfm : ts1.filterMap (fun ft => decodePoint env ft.2) =
      ts2.filterMap (fun ft => decodePoint env ft.2) := by
    rw [filterMap_decode_filter_coarse env ts1,
        filterMap_decode_filter_coarse env ts2, hsame]
  refine ⟨fun t ht => decodePoint_coarse env t ht, ?_⟩
  unfold buildDistFilter
  rw [h1, h2]
  cases e with
  | some e0 => rfl
  | none => simp only [visitAccum_eq, hfm]

/-- Claim C4: if VisitDocumentValues returns an error for a document, the
distance-filter predicate returns false for that document, and the error
is swallowed (the predicate is a total Boolean function) — even when
full-precision points were decoded before the error occurred. -/
theorem buildDistFilter_visit_error_rejects {T E : Type} (env : GeoEnv T)
    (dvReader : DVReader T E) (centerLon centerLat maxDist : ℚ)
    (d : DocumentMatch) (e : E)
    (herr : (dvReader.visit d.number).2 = some e) :
    buildDistFilter env dvReader centerLon centerLat maxDist d = false := by
  unfold buildDistFilter
  cases hv : dvReader.visit d.number with
  | mk terms errv =>
    rw [hv] at herr
    simp only at herr
    subst herr
    rfl

/-- Claim C10: a term whose shift decoding fails, or whose shift is 0 but
whose 64-bit integer decoding fails, is silently skipped: removing such a
term from the visited sequence leaves the predicate result unchanged, so
the result is determined entirely by the remaining decodable shift-0
terms. -/
theorem buildDistFilter_undecodable_skipped {T E : Type} (env : GeoEnv T)
    (dv1 dv2 : DVReader T E) (centerLon centerLat maxDist : ℚ)
    (d1 d2 : DocumentMatch) (pre post : List (String × T)) (f : String)
    (t : T) (e : Option E)
    (h1 : dv1.visit d1.number = (pre ++ (f, t) :: post, e))
    (h2 : dv2.visit d2.number = (pre ++ post, e))
    (hbad : env.shift t = none ∨ (env.shift t = some 0 ∧ env.int64 t = none)) :
    buildDistFilter env dv1 centerLon centerLat maxDist d1 =
      buildDistFilter env dv2 centerLon centerLat maxDist d2 := by
  have hdec : decodePoint env t = none := by
    rcases hbad with h | ⟨h0, hi⟩
    · simp [decodePoint, h]
    · simp [decodePoint, h0, hi]
  have hfm : (pre ++ (f, t) :: post).filterMap (fun ft => decodePoint env ft.2) =
      (pre ++ post).filterMap (fun ft => decodePoint env ft.2) := by
    simp [List.filterMap_append, List.filterMap_cons, hdec]
  unfold buildDistFilter
  rw [h1, h2]
  cases e with
  | some e0 => rfl
  | none => simp only [visitAccum_eq, hfm]

/-- A concrete decoding environment for witnesses: terms are naturals,
terms below 100 have shift 0, term 7 fails integer decoding, and the
haversine stand-in is the taxicab distance. -/
def envW : GeoEnv Nat :=
  { shift := fun t => if t < 100 then some 0 else some 1,
    int64 := fun t => if t = 7 then none else some (t : Int),
    mortonUnhashLon := fun n => (n : ℚ),
    mortonUnhashLat := fun _ => 0,
    haversin := fun lon1 lat1 lon2 lat2 => |lon1 - lon2| + |lat1 - lat2| }

def dvReaderW1 : DVReader Nat Unit := ⟨fun _ => ([("geo", 5)], none)⟩

def dvReaderW2 : DVReader Nat Unit :=
  ⟨fun _ => ([("geo", 5), ("geo", 200)], none)⟩

def dvReaderW3 : DVReader Nat Unit := ⟨fun _ => ([("geo", 5)], some ())⟩

def dvReaderW4 : DVReader Nat Unit :=
  ⟨fun _ => ([("geo", 5), ("geo", 7)], none)⟩

theorem buildDistFilter_true_iff_witness :
    buildDistFilter envW dvReaderW1 5 0 1000 ⟨0⟩ = true ↔
      ∃ ft ∈ [(("geo" : String), (5 : Nat))], ∃ pt,
        decodePoint envW ft.2 = some pt ∧
          envW.haversin pt.1 pt.2 5 0 ≤ 1000 / 1000 :=
  buildDistFilter_true_iff envW dvReaderW1 5 0 1000 ⟨0⟩ [("geo", 5)] rfl

theorem buildDistFilter_coarse_invariant_witness :
    (∀ t : Nat, isCoarse envW t = true → decodePoint envW t = none) ∧
      buildDistFilter envW dvReaderW2 5 0 1000 ⟨0⟩ =
        buildDistFilter envW dvReaderW1 5 0 1000 ⟨1⟩ :=
  buildDistFilter_coarse_invariant envW dvReaderW2 dvReaderW1 5 0 1000 ⟨0⟩ ⟨1⟩
    [("geo", 5), ("geo", 200)] [("geo", 5)] none rfl rfl (by decide)

theorem buildDistFilter_visit_error_rejects_witness :
    buildDistFilter envW dvReaderW3 5 0 1000 ⟨0⟩ = false :=
  buildDistFilter_visit_error_rejects envW dvReaderW3 5 0 1000 ⟨0⟩ () rfl

theorem buildDistFilter_undecodable_skipped_witness :
    buildDistFilter envW dvReaderW4 5 0 1000 ⟨0⟩ =
      buildDistFilter envW dvReaderW1 5 0 1000 ⟨1⟩ :=
  buildDistFilter_undecodable_skipped envW dvReaderW4 dvReaderW1 5 0 1000
    ⟨0⟩ ⟨1⟩ [("geo", 5)] [] "geo" 7 none rfl rfl (Or.inr ⟨rfl, rfl⟩)

theorem NewGeoBoundingBoxSearcher_ok {E : Type} (env : BuildEnv E)
    (a b c d : ℚ) (field : String) (boost : ℚ) (cb : Bool) (ps : Nat)
    (s : Searcher)
    (h : NewGeoBoundingBoxSearcher env a b c d field boost cb ps = .ok s) :
    s = .geoBox a b c d field boost cb ps := by
  unfold NewGeoBoundingBoxSearcher at h
  cases ho : env.geoBoundingBoxFail a b c d field boost cb ps with
  | some e => rw [ho] at h; simp at h
  | none => rw [ho] at h; simp at h; exact h.symm

theorem NewDisjunctionSearcher_ok {E : Type} (env : BuildEnv E)
    (subs : List Searcher) (minMatch : Nat) (scorer : CompositeScorer)
    (s : Searcher)
    (h : NewDisjunctionSearcher env subs minMatch scorer = .ok s) :
    s = .disjunction subs minMatch scorer := by
  unfold NewDisjunctionSearcher at h
  cases ho : env.disjunctionFail subs minMatch scorer with
  | some e => rw [ho] at h; simp at h
  | none => rw [ho] at h; simp at h; exact h.symm

/-- A successful boxSearcher closes nothing and returns either a single
bounding-box leaf or a disjunction of exactly two bounding-box leaves,
in both cases carrying the forwarded checkBoundaries flag, field, boost
and precision step. -/
theorem boxSearcher_ok_shape {E : Type} (env : BuildEnv E)
    (tlLon tlLat brLon brLat : ℚ) (field : String) (boost : ℚ) (cb : Bool)
    (ps : Nat) (b : Searcher) (tr : List Searcher)
    (h : boxSearcher env tlLon tlLat brLon brLat field boost cb ps =
      (.ok b, tr)) :
    tr = [] ∧
      ((∃ q1 q2 q3 q4, b = .geoBox q1 q2 q3 q4 field boost cb ps) ∨
       (∃ q1 q2 q3 q4 r1 r2 r3 r4,
          b = .disjunction
            [.geoBox q1 q2 q3 q4 field boost cb ps,
             .geoBox r1 r2 r3 r4 field boost cb ps] 0 .sum)) := by
  unfold boxSearcher at h
  split at h
  · split at h
    · simp at h
    · rename_i leftSearcher hL
      split at h
      · simp at h
      · rename_i rightSearcher hR
        split at h
        · simp at h
        · rename_i s hD
          obtain ⟨hb, htr⟩ := Prod.mk.injEq .. ▸ h
          simp only [Except.ok.injEq] at hb
          refine ⟨htr.symm, Or.inr ?_⟩
          have hLs := NewGeoBoundingBoxSearcher_ok env _ _ _ _ _ _ _ _ _ hL
          have hRs := NewGeoBoundingBoxSearcher_ok env _ _ _ _ _ _ _ _ _ hR
          have hDs := NewDisjunctionSearcher_ok env _ _ _ _ hD
          subst hLs hRs
          exact ⟨-180, brLat, brLon, tlLat, tlLon, brLat, 180, tlLat,
            hb ▸ hDs⟩
  · split at h
    · simp at h
    · rename_i s hB
      obtain ⟨hb, htr⟩ := Prod.mk.injEq .. ▸ h
      simp only [Except.ok.injEq] at hb
      have hBs := NewGeoBoundingBoxSearcher_ok env _ _ _ _ _ _ _ _ _ hB
      exact ⟨htr.symm, Or.inl ⟨tlLon, brLat, brLon, tlLat, hb ▸ hBs⟩⟩

/-- Claim C1: for every bounding rectangle with
bottomRightLon < topLeftLon, boxSearcher builds exactly two bounding-box
searchers, the left over [-180, bottomRightLat, bottomRightLon,
topLeftLat] and the right over [topLeftLon, bottomRightLat, 180,
topLeftLat], and returns them combined in a disjunction searcher with
minimum-match count 0 and a sum composite scorer (closing nothing). -/
theorem boxSearcher_dateline_split {E : Type} (env : BuildEnv E)
    (topLeftLon topLeftLat bottomRightLon bottomRightLat : ℚ)
    (field : String) (boost : ℚ) (checkBoundaries : Bool)
    (precisionStep : Nat)
    (hcross : bottomRightLon < topLeftLon)
    (hL : env.geoBoundingBoxFail (-180) bottomRightLat bottomRightLon
        topLeftLat field boost checkBoundaries precisionStep = none)
    (hR : env.geoBoundingBoxFail topLeftLon bottomRightLat 180 topLeftLat
        field boost checkBoundaries precisionStep = none)
    (hD : env.disjunctionFail
        [.geoBox (-180) bottomRightLat bottomRightLon topLeftLat field
           boost checkBoundaries precisionStep,
         .geoBox topLeftLon bottomRightLat 180 topLeftLat field boost
           checkBoundaries precisionStep] 0 .sum = none) :
    boxSearcher env topLeftLon topLeftLat bottomRightLon bottomRightLat
        field boost checkBoundaries precisionStep =
      (.ok (.disjunction
        [.geoBox (-180) bottomRightLat bottomRightLon topLeftLat field
           boost checkBoundaries precisionStep,
         .geoBox topLeftLon bottomRightLat 180 topLeftLat field boost
           checkBoundaries precisionStep] 0 .sum), []) := by
  simp [boxSearcher, NewGeoBoundingBoxSearcher, NewDisjunctionSearcher,
    hcross, hL, hR, hD]

/-- Claim C8: for every bounding rectangle with
bottomRightLon ≥ topLeftLon (no antimeridian crossing), boxSearcher
builds exactly one bounding-box searcher over [topLeftLon,
bottomRightLat, bottomRightLon, topLeftLat] and returns it directly,
with no split and no disjunction node (and closes nothing). -/
theorem boxSearcher_no_split {E : Type} (env : BuildEnv E)
    (topLeftLon topLeftLat bottomRightLon bottomRightLat : ℚ)
    (field : String) (boost : ℚ) (checkBoundaries : Bool)
    (precisionStep : Nat)
    (hnc : topLeftLon ≤ bottomRightLon)
    (hB : env.geoBoundingBoxFail topLeftLon bottomRightLat bottomRightLon
        topLeftLat field boost checkBoundaries precisionStep = none) :
    boxSearcher env topLeftLon topLeftLat bottomRightLon bottomRightLat
        field boost checkBoundaries precisionStep =
      (.ok (.geoBox topLeftLon bottomRightLat bottomRightLon topLeftLat
        field boost checkBoundaries precisionStep), []) := by
  simp [boxSearcher, NewGeoBoundingBoxSearcher, not_lt.mpr hnc, hB]

/-- Claim C6: in the dateline-split path of boxSearcher, if building the
right searcher fails after the left succeeded, the left searcher is
closed exactly once (the close trace is exactly the singleton of the left
searcher) before the right error propagates unchanged; and if building
the disjunction fails after both sub-searchers succeeded, both are closed
before the disjunction error propagates unchanged. -/
theorem boxSearcher_dateline_cleanup {E : Type} (env1 env2 : BuildEnv E)
    (topLeftLon topLeftLat bottomRightLon bottomRightLat : ℚ)
    (field : String) (boost : ℚ) (checkBoundaries : Bool)
    (precisionStep : Nat)
    (hcross : bottomRightLon < topLeftLon) (e1 e2 : E)
    (hL1 : env1.geoBoundingBoxFail (-180) bottomRightLat bottomRightLon
        topLeftLat field boost checkBoundaries precisionStep = none)
    (hR1 : env1.geoBoundingBoxFail topLeftLon bottomRightLat 180 topLeftLat
        field boost checkBoundaries precisionStep = some e1)
    (hL2 : env2.geoBoundingBoxFail (-180) bottomRightLat bottomRightLon
        topLeftLat field boost checkBoundaries precisionStep = none)
    (hR2 : env2.geoBoundingBoxFail topLeftLon bottomRightLat 180 topLeftLat
        field boost checkBoundaries precisionStep = none)
    (hD2 : env2.disjunctionFail
        [.geoBox (-180) bottomRightLat bottomRightLon topLeftLat field
           boost checkBoundaries precisionStep,
         .geoBox topLeftLon bottomRightLat 180 topLeftLat field boost
           checkBoundaries precisionStep] 0 .sum = some e2) :
    boxSearcher env1 topLeftLon topLeftLat bottomRightLon bottomRightLat
        field boost checkBoundaries precisionStep =
      (.error e1, [.geoBox (-180) bottomRightLat bottomRightLon topLeftLat
        field boost checkBoundaries precisionStep]) ∧
    boxSearcher env2 topLeftLon topLeftLat bottomRightLon bottomRightLat
        field boost checkBoundaries precisionStep =
      (.error e2, [.geoBox (-180) bottomRightLat bottomRightLon topLeftLat
        field boost checkBoundaries precisionStep,
       .geoBox topLeftLon bottomRightLat 180 topLeftLat field boost
        checkBoundaries precisionStep]) := by
  constructor
  · simp [boxSearcher, NewGeoBoundingBoxSearcher, hcross, hL1, hR1]
  · simp [boxSearcher, NewGeoBoundingBoxSearcher, NewDisjunctionSearcher,
      hcross, hL2, hR2, hD2]

/-- Claim C7: NewGeoPointDistanceSearcher returns an error exactly when
one of its three construction steps fails — bounding-rectangle
computation, box-searcher construction, or document-value-reader
acquisition — and the error returned is the collaborator error propagated
unchanged, with no retry; when all three succeed it returns the box
searcher wrapped in a filtering searcher carrying the distance-filter
parameters. -/
theorem NewGeoPointDistanceSearcher_error_cases {E : Type}
    (env : BuildEnv E) (centerLon centerLat dist : ℚ) (field : String)
    (boost : ℚ) (precisionStep : Nat) :
    (∀ e, env.rectFromPointDistance centerLon centerLat dist = .error e →
      (NewGeoPointDistanceSearcher env centerLon centerLat dist field boost
        precisionStep).1 = .error e) ∧
    (∀ tlLon tlLat brLon brLat e,
      env.rectFromPointDistance centerLon centerLat dist =
        .ok (tlLon, tlLat, brLon, brLat) →
      (boxSearcher env tlLon tlLat brLon brLat field boost false
        precisionStep).1 = .error e →
      (NewGeoPointDistanceSearcher env centerLon centerLat dist field boost
        precisionStep).1 = .error e) ∧
    (∀ tlLon tlLat brLon brLat s e,
      env.rectFromPointDistance centerLon centerLat dist =
        .ok (tlLon, tlLat, brLon, brLat) →
      (boxSearcher env tlLon tlLat brLon brLat field boost false
        precisionStep).1 = .ok s →
      env.documentValueReaderFail [field] = some e →
      (NewGeoPointDistanceSearcher env centerLon centerLat dist field boost
        precisionStep).1 = .error e) ∧
    (∀ tlLon tlLat brLon brLat s,
      env.rectFromPointDistance centerLon centerLat dist =
        .ok (tlLon, tlLat, brLon, brLat) →
      (boxSearcher env tlLon tlLat brLon brLat field boost false
        precisionStep).1 = .ok s →
      env.documentValueReaderFail [field] = none →
      (NewGeoPointDistanceSearcher env centerLon centerLat dist field boost
        precisionStep).1 =
        .ok (NewFilteringSearcher s centerLon centerLat dist)) := by
  refine ⟨?_, ?_, ?_, ?_⟩
  · intro e hrect
    simp [NewGeoPointDistanceSearcher, hrect]
  · intro tlLon tlLat brLon brLat e hrect hbox
    rcases hb : boxSearcher env tlLon tlLat brLon brLat field boost false
      precisionStep with ⟨res, tr⟩
    rw [hb] at hbox
    dsimp only at hbox
    subst hbox
    simp [NewGeoPointDistanceSearcher, hrect, hb]
  · intro tlLon tlLat brLon brLat s e hrect hbox hdv
    rcases hb : boxSearcher env tlLon tlLat brLon brLat field boost false
      precisionStep with ⟨res, tr⟩
    rw [hb] at hbox
    dsimp only at hbox
    subst hbox
    simp [NewGeoPointDistanceSearcher, hrect, hb, hdv]
  · intro tlLon tlLat brLon brLat s hrect hbox hdv
    rcases hb : boxSearcher env tlLon tlLat brLon brLat field boost false
      precisionStep with ⟨res, tr⟩
    rw [hb] at hbox
    dsimp only at hbox
    subst hbox
    simp [NewGeoPointDistanceSearcher, hrect, hb, hdv]

/-- Claim C9: NewGeoPointDistanceSearcher always hands boxSearcher a
checkBoundaries flag of false: on success the returned searcher is the
box searcher wrapped in the distance filtering searcher, and every
bounding-box leaf inside it carries checkBoundaries = false — exact
containment in the circle is left entirely to the distance filter. -/
theorem NewGeoPointDistanceSearcher_checkBoundaries_false {E : Type}
    (env : BuildEnv E) (centerLon centerLat dist : ℚ) (field : String)
    (boost : ℚ) (precisionStep : Nat) (s : Searcher) (tr : List Searcher)
    (hok : NewGeoPointDistanceSearcher env centerLon centerLat dist field
      boost precisionStep = (.ok s, tr)) :
    ∃ base, s = NewFilteringSearcher base centerLon centerLat dist ∧
      ((∃ q1 q2 q3 q4,
          base = .geoBox q1 q2 q3 q4 field boost false precisionStep) ∨
       (∃ q1 q2 q3 q4 r1 r2 r3 r4,
          base = .disjunction
            [.geoBox q1 q2 q3 q4 field boost false precisionStep,
             .geoBox r1 r2 r3 r4 field boost false precisionStep]
            0 .sum)) := by
  unfold NewGeoPointDistanceSearcher at hok
  split at hok
  · simp at hok
  · split at hok
    · simp at hok
    · rename_i box closed hbox
      split at hok
      · simp at hok
      · simp only [Prod.mk.injEq, Except.ok.injEq] at hok
        obtain ⟨hs, -⟩ := hok
        obtain ⟨-, hshape⟩ := boxSearcher_ok_shape _ _ _ _ _ _ _ _ _ _ _ hbox
        exact ⟨box, hs.symm, hshape⟩

/-- A construction environment on which everything succeeds except
acquisition of the document value reader. -/
def leakEnv : BuildEnv Nat :=
  { rectFromPointDistance := fun _ _ _ => .ok (1, 1, 2, 0),
    geoBoundingBoxFail := fun _ _ _ _ _ _ _ _ => none,
    disjunctionFail := fun _ _ _ => none,
    documentValueReaderFail := fun _ => some 7 }

/-- Claim C5 is violated by the code: when acquiring the document value
reader fails after the box searcher was successfully built,
NewGeoPointDistanceSearcher propagates the error with an empty close
trace — the already-built box searcher is never closed, so it leaks on
that error path.  The first conjunct shows the box searcher for the same
rectangle is built successfully; the second shows the constructor then
returns the value-reader error having closed nothing. -/
theorem NewGeoPointDistanceSearcher_dvreader_error_no_close :
    boxSearcher leakEnv 1 1 2 0 "geo" 1 false 6 =
      (.ok (.geoBox 1 0 2 1 "geo" 1 false 6), []) ∧
    NewGeoPointDistanceSearcher leakEnv 0 0 5 "geo" 1 6 =
      (.error 7, []) :=
  ⟨rfl, rfl⟩

/-- A construction environment on which every collaborator succeeds;
the bounding rectangle does not cross the antimeridian. -/
def buildEnvOk : BuildEnv Nat :=
  { rectFromPointDistance := fun _ _ _ => .ok (10, 10, 20, -10),
    geoBoundingBoxFail := fun _ _ _ _ _ _ _ _ => none,
    disjunctionFail := fun _ _ _ => none,
    documentValueReaderFail := fun _ => none }

/-- A construction environment whose bounding-box constructor fails
exactly on boxes whose west edge is 170 — the right half of the dateline
split below — with error 3. -/
def buildEnvFailRight : BuildEnv Nat :=
  { rectFromPointDistance := fun _ _ _ => .ok (170, 10, -170, -10),
    geoBoundingBoxFail := fun minLon _ _ _ _ _ _ _ =>
      if minLon = 170 then some 3 else none,
    disjunctionFail := fun _ _ _ => none,
    documentValueReaderFail := fun _ => none }

/-- A construction environment whose disjunction constructor always
fails with error 4. -/
def buildEnvFailDisj : BuildEnv Nat :=
  { rectFromPointDistance := fun _ _ _ => .ok (170, 10, -170, -10),
    geoBoundingBoxFail := fun _ _ _ _ _ _ _ _ => none,
    disjunctionFail := fun _ _ _ => some 4,
    documentValueReaderFail := fun _ => none }

theorem boxSearcher_dateline_split_witness :
    boxSearcher buildEnvOk 170 10 (-170) (-10) "geo" 1 false 6 =
      (.ok (.disjunction
        [.geoBox (-180) (-10) (-170) 10 "geo" 1 false 6,
         .geoBox 170 (-10) 180 10 "geo" 1 false 6] 0 .sum), []) :=
  boxSearcher_dateline_split buildEnvOk 170 10 (-170) (-10) "geo" 1 false 6
    (by norm_num) rfl rfl rfl

theorem boxSearcher_no_split_witness :
    boxSearcher buildEnvOk 10 10 20 (-10) "geo" 1 true 6 =
      (.ok (.geoBox 10 (-10) 20 10 "geo" 1 true 6), []) :=
  boxSearcher_no_split buildEnvOk 10 10 20 (-10) "geo" 1 true 6
    (by norm_num) rfl

theorem boxSearcher_dateline_cleanup_witness :
    boxSearcher buildEnvFailRight 170 10 (-170) (-10) "geo" 1 false 6 =
      (.error 3, [.geoBox (-180) (-10) (-170) 10 "geo" 1 false 6]) ∧
    boxSearcher buildEnvFailDisj 170 10 (-170) (-10) "geo" 1 false 6 =
      (.error 4, [.geoBox (-180) (-10) (-170) 10 "geo" 1 false 6,
                  .geoBox 170 (-10) 180 10 "geo" 1 false 6]) :=
  boxSearcher_dateline_cleanup buildEnvFailRight buildEnvFailDisj 170 10
    (-170) (-10) "geo" 1 false 6 (by norm_num) 3 4 rfl rfl rfl rfl rfl

theorem NewGeoPointDistanceSearcher_error_cases_witness :
    (NewGeoPointDistanceSearcher buildEnvOk 15 0 5 "geo" 1 6).1 =
      .ok (NewFilteringSearcher (.geoBox 10 (-10) 20 10 "geo" 1 false 6)
        15 0 5) :=
  (NewGeoPointDistanceSearcher_error_cases buildEnvOk 15 0 5 "geo" 1
    6).2.2.2 10 10 20 (-10) (.geoBox 10 (-10) 20 10 "geo" 1 false 6)
    rfl rfl rfl

theorem NewGeoPointDistanceSearcher_checkBoundaries_false_witness :
    ∃ base,
      NewFilteringSearcher (.geoBox 10 (-10) 20 10 "geo" 1 false 6) 15 0 5 =
        NewFilteringSearcher base 15 0 5 ∧
      ((∃ q1 q2 q3 q4,
          base = .geoBox q1 q2 q3 q4 "geo" 1 false 6) ∨
       (∃ q1 q2 q3 q4 r1 r2 r3 r4,
          base = .disjunction
            [.geoBox q1 q2 q3 q4 "geo" 1 false 6,
             .geoBox r1 r2 r3 r4 "geo" 1 false 6] 0 .sum)) :=
  NewGeoPointDistanceSearcher_checkBoundaries_false buildEnvOk 15 0 5 "geo"
    1 6 (NewFilteringSearcher (.geoBox 10 (-10) 20 10 "geo" 1 false 6)
      15 0 5) [] rfl

end GeoPointDistance
